import Mathlib

/-!
Verification development for the Vitamin D Risk Estimator inference core.

The numeric core of the repository is embedded shallowly:

* `QuantilePredictions`, `enforceMonotonicQuantiles`, `scaleIntervalAroundMedian`,
  `calibrateQuantiles` mirror `src/app/src/inference/QuantileCalibration.ts`
  over exact rationals (JavaScript numbers idealised as `ℚ`).
* `generateCounseling` mirrors the wide-interval-first `CounselingLogic`
  (the variant the design notes adopt as canonical) over `ℚ`.
* `buildCdf`, `evaluateCdf` and the sampling grid mirror the piecewise-linear
  `src/app/src/inference/CdfBuilder.ts` over `ℝ` (the tails use `Real.exp`
  and `Real.log`).
* A `JsNum` type (rationals extended with `NaN` and signed infinities,
  following IEEE-754 semantics as exposed by JavaScript) is used to study how
  non-finite inputs travel through the pipeline.
-/

namespace VitaminD

/-! ## Quantile calibration (QuantileCalibration.ts), over exact rationals -/

/-- Five quantile predictions `{q05, q25, q50, q75, q95}` in ng/mL. -/
structure QuantilePredictions where
  q05 : ℚ
  q25 : ℚ
  q50 : ℚ
  q75 : ℚ
  q95 : ℚ
deriving DecidableEq

/-- Constant `COVERAGE_TOLERANCE = 0.005` from QuantileCalibration.ts. -/
def COVERAGE_TOLERANCE : ℚ := 5 / 1000

/-- Constant `MAX_TAIL_SCALE = 1.35` from QuantileCalibration.ts. -/
def MAX_TAIL_SCALE : ℚ := 135 / 100

/-- Constant `MIDDLE_SCALE_FRACTION = 0.5` from QuantileCalibration.ts. -/
def MIDDLE_SCALE_FRACTION : ℚ := 1 / 2

/-- `enforceMonotonicQuantiles`: walk the five values in quantile order and
clamp each value up to its predecessor when it is smaller (the loop
`if (values[i] < values[i-1]) values[i] = values[i-1]`, unrolled). -/
def enforceMonotonicQuantiles (quantiles : QuantilePredictions) : QuantilePredictions :=
  let v0 := quantiles.q05
  let v1 := if quantiles.q25 < v0 then v0 else quantiles.q25
  let v2 := if quantiles.q50 < v1 then v1 else quantiles.q50
  let v3 := if quantiles.q75 < v2 then v2 else quantiles.q75
  let v4 := if quantiles.q95 < v3 then v3 else quantiles.q95
  { q05 := v0, q25 := v1, q50 := v2, q75 := v3, q95 := v4 }

/-- `scaleIntervalAroundMedian`: widen the outer quantiles around the median by
`tailScale` and the inner ones by `1 + (tailScale - 1) * MIDDLE_SCALE_FRACTION`,
then re-enforce monotonicity. -/
def scaleIntervalAroundMedian (quantiles : QuantilePredictions) (tailScale : ℚ) :
    QuantilePredictions :=
  let median := quantiles.q50
  let middleScale := 1 + (tailScale - 1) * MIDDLE_SCALE_FRACTION
  enforceMonotonicQuantiles
    { q05 := median - (median - quantiles.q05) * tailScale
      q25 := median - (median - quantiles.q25) * middleScale
      q50 := median
      q75 := median + (quantiles.q75 - median) * middleScale
      q95 := median + (quantiles.q95 - median) * tailScale }

/-- The `conformal_adjustments.pi90` record `{lower, upper}` of the model
metadata (the optional nesting of the JSON is collapsed into one `Option`). -/
structure ConformalPi90 where
  lower : ℚ
  upper : ℚ
deriving DecidableEq

/-- The `interval_coverage.pi90` record `{coverage, target}` of the model
metadata. -/
structure IntervalCoveragePi90 where
  coverage : ℚ
  target : ℚ
deriving DecidableEq

/-- The parts of `ModelMeta` that `calibrateQuantiles` reads.  In the source
both fields are optional chains (`modelMeta.conformal_adjustments?.pi90`,
`modelMeta.interval_coverage?.pi90`); each chain is collapsed into a single
`Option` since an absent value at either level behaves the same. -/
structure ModelMeta where
  conformal_adjustments : Option ConformalPi90
  interval_coverage : Option IntervalCoveragePi90
deriving DecidableEq

/-- The coverage-ratio fallback of `calibrateQuantiles` (the code after the
conformal branch): widen by `min(MAX_TAIL_SCALE, max(1, 1 + gap / max(coverage, 0.01)))`
when the observed PI90 coverage undershoots the target by more than the
tolerance.  `monotonic` is the already monotonicity-repaired input. -/
def coverageFallback (monotonic : QuantilePredictions) :
    Option IntervalCoveragePi90 → QuantilePredictions
  | none => monotonic
  | some pi90 =>
    if pi90.coverage ≤ 0 ∨ pi90.target ≤ 0 then monotonic
    else
      let gap := pi90.target - pi90.coverage
      if gap ≤ COVERAGE_TOLERANCE then monotonic
      else
        scaleIntervalAroundMedian monotonic
          (min MAX_TAIL_SCALE (max 1 (1 + gap / max pi90.coverage (1 / 100))))

/-- `calibrateQuantiles`: enforce monotonicity, then apply the explicit
conformal widening when present with finite non-negative bounds (over `ℚ`
every value is finite, so the `Number.isFinite` guards always hold), otherwise
fall back to coverage-ratio widening. -/
def calibrateQuantiles (quantiles : QuantilePredictions)
    (modelMeta : Option ModelMeta) : QuantilePredictions :=
  let monotonic := enforceMonotonicQuantiles quantiles
  match modelMeta with
  | none => monotonic
  | some meta =>
    match meta.conformal_adjustments with
    | some conformal =>
      if 0 ≤ conformal.lower ∧ 0 ≤ conformal.upper then
        enforceMonotonicQuantiles
          { q05 := monotonic.q05 - conformal.lower
            q25 := monotonic.q25 - conformal.lower * (35 / 100)
            q50 := monotonic.q50
            q75 := monotonic.q75 + conformal.upper * (35 / 100)
            q95 := monotonic.q95 + conformal.upper }
      else coverageFallback monotonic meta.interval_coverage
    | none => coverageFallback monotonic meta.interval_coverage

/-- The guard of the conformal branch of `calibrateQuantiles` holds: a
`pi90` conformal record is present and both widening amounts are
non-negative. -/
def conformalApplies (meta : ModelMeta) : Prop :=
  ∃ c, meta.conformal_adjustments = some c ∧ 0 ≤ c.lower ∧ 0 ≤ c.upper

/-- A quantile record is non-decreasing in quantile order. -/
def QuantilesSorted (q : QuantilePredictions) : Prop :=
  q.q05 ≤ q.q25 ∧ q.q25 ≤ q.q50 ∧ q.q50 ≤ q.q75 ∧ q.q75 ≤ q.q95

end VitaminD

namespace VitaminD

/-! ## Counseling logic (CounselingLogic.ts, wide-interval-first variant)

The repository history contains two zone-priority orderings; the design notes
adopt the wide-interval-first ordering as canonical, and that version is
embedded here. -/

/-- Threshold probabilities `{pBelow12, pBelow20, pBelow30}`. -/
structure ThresholdProbabilities where
  pBelow12 : ℚ
  pBelow20 : ℚ
  pBelow30 : ℚ
deriving DecidableEq

/-- Encoded model features (constants.ts / FeatureEncoder.ts). -/
structure ModelFeatures where
  age : ℚ
  sex : ℚ
  bmi : ℚ
  race_eth : ℚ
  exam_season : ℚ
  supplement_cat : ℚ
deriving DecidableEq

/-- One `sparse_subgroups` entry of the model metadata. -/
structure SparseSubgroup where
  race_eth : ℚ
  sex : ℚ
  age_decade : ℚ
deriving DecidableEq

/-- Counseling zone. -/
inductive Zone where
  | low : Zone
  | uncertain : Zone
  | high : Zone
deriving DecidableEq

/-- The zone/headline/description/recommendation part of a counseling
result (the return type of `getZoneContent`). -/
structure ZoneContent where
  zone : Zone
  headline : String
  text : String
  recommendation : String
deriving DecidableEq

/-- `CounselingResult` (the `description` string field is named `text` here). -/
structure CounselingResult where
  zone : Zone
  headline : String
  text : String
  recommendation : String
  wideIntervalWarning : Bool
  sparseDataWarning : Bool
deriving DecidableEq

/-- Constant `ZONE_BOUNDARIES.LOW_RISK_CEILING = 0.10`. -/
def LOW_RISK_CEILING : ℚ := 1 / 10

/-- Constant `ZONE_BOUNDARIES.HIGH_RISK_FLOOR = 0.50`. -/
def HIGH_RISK_FLOOR : ℚ := 1 / 2

/-- Constant `ZONE_BOUNDARIES.WIDE_INTERVAL_THRESHOLD = 35`. -/
def WIDE_INTERVAL_THRESHOLD : ℚ := 35

/-- JavaScript `Math.round` over exact rationals: round half toward
positive infinity. -/
def mathRound (x : ℚ) : ℤ := ⌊x + 1 / 2⌋

/-- `getZoneContent`: the fixed message payload of each zone, parameterised by
the rounded deficiency probability and rounded median; the `uncertain` zone
has two sub-variants selected by `wideInterval`. -/
def getZoneContent (zone : Zone) (thresholds : ThresholdProbabilities)
    (quantiles : QuantilePredictions) (wideInterval : Bool) : ZoneContent :=
  let pct := mathRound (thresholds.pBelow20 * 100)
  let median := mathRound quantiles.q50
  match zone with
  | Zone.low =>
    { zone := Zone.low
      headline := "Low Risk of Deficiency"
      text := "Based on your profile, there is about a " ++ toString pct ++
        "% chance your vitamin D is below 20 ng/mL. Your estimated level is around " ++
        toString median ++ " ng/mL."
      recommendation := "A lab test is unlikely to find deficiency. Consider maintaining your current lifestyle. If you have specific health concerns, discuss with your doctor." }
  | Zone.high =>
    { zone := Zone.high
      headline := "Higher Risk of Deficiency"
      text := "Based on your profile, there is about a " ++ toString pct ++
        "% chance your vitamin D is below 20 ng/mL. Your estimated level is around " ++
        toString median ++ " ng/mL."
      recommendation := "Consider discussing vitamin D supplementation and/or testing with your healthcare provider. Factors like your skin tone, sun exposure, and time of year contribute to this estimate." }
  | Zone.uncertain =>
    { zone := Zone.uncertain
      headline := if wideInterval then "Uncertain Estimate - Consider Testing"
        else "Moderate Risk - Testing May Help"
      text := if wideInterval then
          "Your profile falls in a range where our estimate is less precise. Your estimated level is around " ++
            toString median ++ " ng/mL, but the uncertainty is wider than usual."
        else
          "Based on your profile, there is about a " ++ toString pct ++
            "% chance your vitamin D is below 20 ng/mL. Your estimated level is around " ++
            toString median ++ " ng/mL."
      recommendation := "A blood test would provide the most useful information for your situation. The cost of a 25(OH)D test is typically modest, and the result would help guide supplementation decisions." }

/-- `generateCounseling` (wide-interval-first variant): compute the PI90
width and the sparse-subgroup flag, decide the zone with the wide-interval
test first, and assemble the result from `getZoneContent`. -/
def generateCounseling (quantiles : QuantilePredictions)
    (thresholds : ThresholdProbabilities) (features : ModelFeatures)
    (sparseSubgroups : Option (List SparseSubgroup)) : CounselingResult :=
  let pi90Width := quantiles.q95 - quantiles.q05
  let wideInterval : Bool := decide (pi90Width > WIDE_INTERVAL_THRESHOLD)
  let ageDec : ℚ := (⌊features.age / 10⌋ : ℤ) * 10
  let sparseDataWarning : Bool :=
    match sparseSubgroups with
    | none => false
    | some sgs => sgs.any fun sg =>
        decide (sg.race_eth = features.race_eth) && decide (sg.sex = features.sex) &&
          decide (sg.age_decade = ageDec)
  let zone : Zone :=
    if wideInterval then Zone.uncertain
    else if thresholds.pBelow20 < LOW_RISK_CEILING then Zone.low
    else if thresholds.pBelow20 > HIGH_RISK_FLOOR then Zone.high
    else Zone.uncertain
  let result := getZoneContent zone thresholds quantiles wideInterval
  { zone := result.zone
    headline := result.headline
    text := result.text
    recommendation := result.recommendation
    wideIntervalWarning := wideInterval
    sparseDataWarning := sparseDataWarning }
end VitaminD

namespace VitaminD

/-! ## JavaScript number semantics with non-finite values

To study how non-finite inputs travel through the pipeline, the relevant
functions are re-embedded over `JsNum`, exact rationals extended with `NaN`
and the two signed infinities, with operations following IEEE-754 semantics
as exposed by JavaScript (comparisons with `NaN` are false, arithmetic on
`NaN` yields `NaN`, `Math.max`/`Math.min` propagate `NaN`).  The negative
zero of IEEE-754 is not modelled; no operation on the paths studied below
produces or branches on it. -/

inductive JsNum where
  | nan : JsNum
  | inf : JsNum
  | ninf : JsNum
  | num : ℚ → JsNum
deriving DecidableEq

/-- JavaScript `<=`. -/
def jsLe : JsNum → JsNum → Bool
  | JsNum.nan, _ => false
  | _, JsNum.nan => false
  | JsNum.inf, JsNum.inf => true
  | JsNum.inf, _ => false
  | _, JsNum.inf => true
  | JsNum.ninf, _ => true
  | _, JsNum.ninf => false
  | JsNum.num a, JsNum.num b => decide (a ≤ b)

/-- JavaScript `<`. -/
def jsLt : JsNum → JsNum → Bool
  | JsNum.nan, _ => false
  | _, JsNum.nan => false
  | JsNum.inf, _ => false
  | _, JsNum.inf => true
  | _, JsNum.ninf => false
  | JsNum.ninf, _ => true
  | JsNum.num a, JsNum.num b => decide (a < b)

/-- JavaScript `>=` (`x >= y` behaves as `y <= x`, including for `NaN`). -/
def jsGe (a b : JsNum) : Bool := jsLe b a

/-- JavaScript negation. -/
def jsNeg : JsNum → JsNum
  | JsNum.nan => JsNum.nan
  | JsNum.inf => JsNum.ninf
  | JsNum.ninf => JsNum.inf
  | JsNum.num a => JsNum.num (-a)

/-- JavaScript addition. -/
def jsAdd : JsNum → JsNum → JsNum
  | JsNum.nan, _ => JsNum.nan
  | _, JsNum.nan => JsNum.nan
  | JsNum.inf, JsNum.ninf => JsNum.nan
  | JsNum.ninf, JsNum.inf => JsNum.nan
  | JsNum.inf, _ => JsNum.inf
  | _, JsNum.inf => JsNum.inf
  | JsNum.ninf, _ => JsNum.ninf
  | _, JsNum.ninf => JsNum.ninf
  | JsNum.num a, JsNum.num b => JsNum.num (a + b)

/-- JavaScript subtraction. -/
def jsSub (a b : JsNum) : JsNum := jsAdd a (jsNeg b)

/-- JavaScript multiplication. -/
def jsMul : JsNum → JsNum → JsNum
  | JsNum.nan, _ => JsNum.nan
  | _, JsNum.nan => JsNum.nan
  | JsNum.inf, JsNum.inf => JsNum.inf
  | JsNum.inf, JsNum.ninf => JsNum.ninf
  | JsNum.ninf, JsNum.inf => JsNum.ninf
  | JsNum.ninf, JsNum.ninf => JsNum.inf
  | JsNum.inf, JsNum.num b =>
    if b = 0 then JsNum.nan else if 0 < b then JsNum.inf else JsNum.ninf
  | JsNum.num a, JsNum.inf =>
    if a = 0 then JsNum.nan else if 0 < a then JsNum.inf else JsNum.ninf
  | JsNum.ninf, JsNum.num b =>
    if b = 0 then JsNum.nan else if 0 < b then JsNum.ninf else JsNum.inf
  | JsNum.num a, JsNum.ninf =>
    if a = 0 then JsNum.nan else if 0 < a then JsNum.ninf else JsNum.inf
  | JsNum.num a, JsNum.num b => JsNum.num (a * b)

/-- JavaScript division (with `-0` unmodelled, a finite value divided by zero
is sent to the infinity matching the numerator sign). -/
def jsDiv : JsNum → JsNum → JsNum
  | JsNum.nan, _ => JsNum.nan
  | _, JsNum.nan => JsNum.nan
  | JsNum.inf, JsNum.inf => JsNum.nan
  | JsNum.inf, JsNum.ninf => JsNum.nan
  | JsNum.ninf, JsNum.inf => JsNum.nan
  | JsNum.ninf, JsNum.ninf => JsNum.nan
  | JsNum.num _, JsNum.inf => JsNum.num 0
  | JsNum.num _, JsNum.ninf => JsNum.num 0
  | JsNum.inf, JsNum.num b => if 0 ≤ b then JsNum.inf else JsNum.ninf
  | JsNum.ninf, JsNum.num b => if 0 ≤ b then JsNum.ninf else JsNum.inf
  | JsNum.num a, JsNum.num b =>
    if b = 0 then
      if a = 0 then JsNum.nan else if 0 < a then JsNum.inf else JsNum.ninf
    else JsNum.num (a / b)

/-- JavaScript `Math.max` (propagates `NaN`). -/
def jsMax : JsNum → JsNum → JsNum
  | JsNum.nan, _ => JsNum.nan
  | _, JsNum.nan => JsNum.nan
  | JsNum.inf, _ => JsNum.inf
  | _, JsNum.inf => JsNum.inf
  | JsNum.ninf, b => b
  | a, JsNum.ninf => a
  | JsNum.num a, JsNum.num b => JsNum.num (max a b)

/-- JavaScript `Math.min` (propagates `NaN`). -/
def jsMin : JsNum → JsNum → JsNum
  | JsNum.nan, _ => JsNum.nan
  | _, JsNum.nan => JsNum.nan
  | JsNum.ninf, _ => JsNum.ninf
  | _, JsNum.ninf => JsNum.ninf
  | JsNum.inf, b => b
  | a, JsNum.inf => a
  | JsNum.num a, JsNum.num b => JsNum.num (min a b)

/-- JavaScript `Number.isFinite`. -/
def jsIsFinite : JsNum → Bool
  | JsNum.num _ => true
  | _ => false

/-- JavaScript `Math.round` (round half toward positive infinity). -/
def jsRoundJs : JsNum → JsNum
  | JsNum.nan => JsNum.nan
  | JsNum.inf => JsNum.inf
  | JsNum.ninf => JsNum.ninf
  | JsNum.num a => JsNum.num ⌊a + 1 / 2⌋

/-- `Math.round(x * 1000) / 1000`, the 3-decimal output rounding of
`buildCdf`. -/
def jsRound3 (x : JsNum) : JsNum :=
  jsDiv (jsRoundJs (jsMul x (JsNum.num 1000))) (JsNum.num 1000)

/-- Quantile predictions over JavaScript numbers. -/
structure JsQuantiles where
  q05 : JsNum
  q25 : JsNum
  q50 : JsNum
  q75 : JsNum
  q95 : JsNum
deriving DecidableEq

/-- The conformal `pi90` record over JavaScript numbers. -/
structure JsConformalPi90 where
  lower : JsNum
  upper : JsNum
deriving DecidableEq

/-- The interval-coverage `pi90` record over JavaScript numbers. -/
structure JsCoveragePi90 where
  coverage : JsNum
  target : JsNum
deriving DecidableEq

/-- Model metadata over JavaScript numbers. -/
structure JsModelMeta where
  conformal_adjustments : Option JsConformalPi90
  interval_coverage : Option JsCoveragePi90
deriving DecidableEq

/-- `enforceMonotonicQuantiles` over JavaScript numbers; because every
comparison with `NaN` is false, a `NaN` entry is neither replaced nor
propagated by the clamping loop. -/
def enforceMonotonicQuantilesJs (quantiles : JsQuantiles) : JsQuantiles :=
  let v0 := quantiles.q05
  let v1 := if jsLt quantiles.q25 v0 then v0 else quantiles.q25
  let v2 := if jsLt quantiles.q50 v1 then v1 else quantiles.q50
  let v3 := if jsLt quantiles.q75 v2 then v2 else quantiles.q75
  let v4 := if jsLt quantiles.q95 v3 then v3 else quantiles.q95
  { q05 := v0, q25 := v1, q50 := v2, q75 := v3, q95 := v4 }

/-- `scaleIntervalAroundMedian` over JavaScript numbers. -/
def scaleIntervalAroundMedianJs (quantiles : JsQuantiles) (tailScale : JsNum) : JsQuantiles :=
  let median := quantiles.q50
  let middleScale := jsAdd (JsNum.num 1) (jsMul (jsSub tailScale (JsNum.num 1)) (JsNum.num (1/2)))
  enforceMonotonicQuantilesJs
    { q05 := jsSub median (jsMul (jsSub median quantiles.q05) tailScale)
      q25 := jsSub median (jsMul (jsSub median quantiles.q25) middleScale)
      q50 := median
      q75 := jsAdd median (jsMul (jsSub quantiles.q75 median) middleScale)
      q95 := jsAdd median (jsMul (jsSub quantiles.q95 median) tailScale) }

/-- The coverage-ratio fallback of `calibrateQuantiles` over JavaScript
numbers. -/
def coverageFallbackJs (monotonic : JsQuantiles) : Option JsCoveragePi90 → JsQuantiles
  | none => monotonic
  | some pi90 =>
    if jsLe pi90.coverage (JsNum.num 0) || jsLe pi90.target (JsNum.num 0) then monotonic
    else
      let gap := jsSub pi90.target pi90.coverage
      if jsLe gap (JsNum.num (5/1000)) then monotonic
      else
        scaleIntervalAroundMedianJs monotonic
          (jsMin (JsNum.num (135/100))
            (jsMax (JsNum.num 1)
              (jsAdd (JsNum.num 1) (jsDiv gap (jsMax pi90.coverage (JsNum.num (1/100)))))))

/-- `calibrateQuantiles` over JavaScript numbers, including the
`Number.isFinite` guards of the conformal branch. -/
def calibrateQuantilesJs (quantiles : JsQuantiles) (modelMeta : Option JsModelMeta) :
    JsQuantiles :=
  let monotonic := enforceMonotonicQuantilesJs quantiles
  match modelMeta with
  | none => monotonic
  | some meta =>
    match meta.conformal_adjustments with
    | some conformal =>
      if jsIsFinite conformal.lower && jsIsFinite conformal.upper &&
          jsGe conformal.lower (JsNum.num 0) && jsGe conformal.upper (JsNum.num 0) then
        enforceMonotonicQuantilesJs
          { q05 := jsSub monotonic.q05 conformal.lower
            q25 := jsSub monotonic.q25 (jsMul conformal.lower (JsNum.num (35/100)))
            q50 := monotonic.q50
            q75 := jsAdd monotonic.q75 (jsMul conformal.upper (JsNum.num (35/100)))
            q95 := jsAdd monotonic.q95 conformal.upper }
      else coverageFallbackJs monotonic meta.interval_coverage
    | none => coverageFallbackJs monotonic meta.interval_coverage

/-- `evaluateCdf` over JavaScript numbers.  The quantile levels are the
constant `QUANTILE_LEVELS = [0.05, 0.25, 0.50, 0.75, 0.95]`; `mexp` is the
abstract `Math.exp` (its value is irrelevant on every path studied here, so
the embedding is parameterised over it). -/
def evaluateCdfJs (mexp : JsNum → JsNum) (x : JsNum) (q : JsQuantiles)
    (leftRate rightRate : JsNum) : JsNum :=
  if jsLe x q.q05 then
    jsMul (JsNum.num (1/20)) (mexp (jsMul leftRate (jsSub x q.q05)))
  else if jsGe x q.q95 then
    jsSub (JsNum.num 1)
      (jsMul (jsSub (JsNum.num 1) (JsNum.num (19/20)))
        (mexp (jsNeg (jsMul rightRate (jsSub x q.q95)))))
  else if jsLe x q.q25 then
    jsAdd (JsNum.num (1/20))
      (jsMul (jsDiv (jsSub x q.q05) (jsSub q.q25 q.q05))
        (jsSub (JsNum.num (1/4)) (JsNum.num (1/20))))
  else if jsLe x q.q50 then
    jsAdd (JsNum.num (1/4))
      (jsMul (jsDiv (jsSub x q.q25) (jsSub q.q50 q.q25))
        (jsSub (JsNum.num (1/2)) (JsNum.num (1/4))))
  else if jsLe x q.q75 then
    jsAdd (JsNum.num (1/2))
      (jsMul (jsDiv (jsSub x q.q50) (jsSub q.q75 q.q50))
        (jsSub (JsNum.num (3/4)) (JsNum.num (1/2))))
  else if jsLe x q.q95 then
    jsAdd (JsNum.num (3/4))
      (jsMul (jsDiv (jsSub x q.q75) (jsSub q.q95 q.q75))
        (jsSub (JsNum.num (19/20)) (JsNum.num (3/4))))
  else JsNum.num 1

/-- The threshold-probability part of `buildCdf` over JavaScript numbers:
the tail rates `computeLeftTailRate`/`computeRightTailRate` (which involve
`Math.log`, passed abstractly as `mlog`) followed by the three
`evaluateCdf` calls at the clinical thresholds 12, 20 and 30 with the
3-decimal rounding.  The sampled display-point lists of `buildCdf` are not
reproduced here; the counseling pipeline consumes only these three
probabilities. -/
def buildCdfThresholdsJs (mexp mlog : JsNum → JsNum) (q : JsQuantiles) :
    JsNum × JsNum × JsNum :=
  let leftRate := jsDiv (mlog (jsDiv (JsNum.num (1/20)) (JsNum.num (1/1000))))
    (jsMax (JsNum.num 10) q.q05)
  let rightRate := jsDiv (mlog (jsDiv (jsSub (JsNum.num 1) (JsNum.num (19/20)))
    (JsNum.num (1/1000)))) (JsNum.num 10)
  (jsRound3 (evaluateCdfJs mexp (JsNum.num 12) q leftRate rightRate),
   jsRound3 (evaluateCdfJs mexp (JsNum.num 20) q leftRate rightRate),
   jsRound3 (evaluateCdfJs mexp (JsNum.num 30) q leftRate rightRate))

end VitaminD

namespace VitaminD

/-! ## CDF construction (piecewise-linear CdfBuilder.ts), over the reals

The piecewise-linear `buildCdf` (linear interpolation between quantile knots,
exponential tails) is embedded over `ℝ`; the tail rates use `Real.log` and the
tails `Real.exp`.  The quantile levels are the constant
`QUANTILE_LEVELS = [0.05, 0.25, 0.50, 0.75, 0.95]`, inlined below. -/

/-- Quantile predictions over the reals, the input type of `buildCdf`. -/
structure RQuantiles where
  q05 : ℝ
  q25 : ℝ
  q50 : ℝ
  q75 : ℝ
  q95 : ℝ

/-- A sampled `(x, y)` display point. -/
structure CdfPoint where
  x : ℝ
  y : ℝ

/-- The result record of `buildCdf`. -/
structure CdfResult where
  pBelow12 : ℝ
  pBelow20 : ℝ
  pBelow30 : ℝ
  cdfPoints : List CdfPoint
  densityPoints : List CdfPoint

/-- JavaScript `Math.round` over the reals (round half toward positive
infinity). -/
noncomputable def jsRoundR (x : ℝ) : ℝ := ⌊x + 1 / 2⌋

/-- `Math.round(x * 10) / 10`. -/
noncomputable def round1 (x : ℝ) : ℝ := jsRoundR (x * 10) / 10

/-- `Math.round(x * 1000) / 1000`. -/
noncomputable def round3 (x : ℝ) : ℝ := jsRoundR (x * 1000) / 1000

/-- `Math.round(x * 10000) / 10000`. -/
noncomputable def round4 (x : ℝ) : ℝ := jsRoundR (x * 10000) / 10000

/-- `computeLeftTailRate`: `log(q05Level / 0.001) / max(10, q05Value)`. -/
noncomputable def computeLeftTailRate (q05Value q05Level : ℝ) : ℝ :=
  Real.log (q05Level / (1 / 1000)) / max 10 q05Value

/-- `computeRightTailRate`: `log((1 - q95Level) / 0.001) / 10` (the value
argument is unused in the source as well). -/
noncomputable def computeRightTailRate (_q95Value q95Level : ℝ) : ℝ :=
  Real.log ((1 - q95Level) / (1 / 1000)) / 10

/-- `evaluateCdf`: exponential left tail below `q05`, exponential right tail
above `q95`, and linear interpolation against the first quantile interval
containing `x` in between (the loop over `qValues` unrolled, with the
constant levels inlined). -/
noncomputable def evaluateCdf (x : ℝ) (q : RQuantiles) (leftRate rightRate : ℝ) : ℝ :=
  if x ≤ q.q05 then (1 / 20) * Real.exp (leftRate * (x - q.q05))
  else if x ≥ q.q95 then 1 - (1 - 19 / 20) * Real.exp (-(rightRate * (x - q.q95)))
  else if x ≤ q.q25 then 1 / 20 + (x - q.q05) / (q.q25 - q.q05) * (1 / 4 - 1 / 20)
  else if x ≤ q.q50 then 1 / 4 + (x - q.q25) / (q.q50 - q.q25) * (1 / 2 - 1 / 4)
  else if x ≤ q.q75 then 1 / 2 + (x - q.q50) / (q.q75 - q.q50) * (3 / 4 - 1 / 2)
  else if x ≤ q.q95 then 3 / 4 + (x - q.q75) / (q.q95 - q.q75) * (19 / 20 - 3 / 4)
  else 1

/-- The left tail rate used by `buildCdf`. -/
noncomputable def leftRateOf (q : RQuantiles) : ℝ := computeLeftTailRate q.q05 (1 / 20)

/-- The right tail rate used by `buildCdf`. -/
noncomputable def rightRateOf (q : RQuantiles) : ℝ := computeRightTailRate q.q95 (19 / 20)

/-- `leftExtent = Math.max(0, qValues[0] - 15)`: start of the sampling grid. -/
noncomputable def leftExtent (q : RQuantiles) : ℝ := max 0 (q.q05 - 15)

/-- `rightExtent = qValues[4] + 15`: end of the sampling grid. -/
noncomputable def rightExtent (q : RQuantiles) : ℝ := q.q95 + 15

/-- Number of iterations of the sampling loop
`for (x = leftExtent; x <= rightExtent; x += 0.5)`: the values visited are
`leftExtent + k * 0.5` for natural `k` with `leftExtent + k * 0.5 ≤ rightExtent`. -/
noncomputable def gridCount (q : RQuantiles) : ℕ :=
  if leftExtent q ≤ rightExtent q
  then (⌊(rightExtent q - leftExtent q) * 2⌋).toNat + 1
  else 0

/-- The `k`-th unrounded sample abscissa of the loop. -/
noncomputable def sampleX (q : RQuantiles) (k : ℕ) : ℝ := leftExtent q + k * (1 / 2)

/-- The `k`-th sampled (3-decimal rounded) CDF ordinate. -/
noncomputable def sampleY (q : RQuantiles) (k : ℕ) : ℝ :=
  round3 (evaluateCdf (sampleX q k) q (leftRateOf q) (rightRateOf q))

/-- The `k`-th pushed CDF display point
`{x: Math.round(x*10)/10, y: Math.round(y*1000)/1000}`. -/
noncomputable def cdfPointAt (q : RQuantiles) (k : ℕ) : CdfPoint :=
  ⟨round1 (sampleX q k), sampleY q k⟩

/-- The `cdfPoints` list of `buildCdf`. -/
noncomputable def cdfPointList (q : RQuantiles) : List CdfPoint :=
  (List.range (gridCount q)).map (cdfPointAt q)

/-- The `i`-th density point: finite difference of the two adjacent rounded
CDF points (`dy/dx` when `dx > 0`, else `0`), placed at the rounded midpoint,
with the ordinate rounded to 4 decimals. -/
noncomputable def densityPointAt (q : RQuantiles) (i : ℕ) : CdfPoint :=
  let p0 := cdfPointAt q i
  let p1 := cdfPointAt q (i + 1)
  let dx := p1.x - p0.x
  let dy := p1.y - p0.y
  ⟨round1 ((p1.x + p0.x) / 2), round4 (if 0 < dx then dy / dx else 0)⟩

/-- The `densityPoints` list of `buildCdf` (one fewer entry than
`cdfPoints`). -/
noncomputable def densityPointList (q : RQuantiles) : List CdfPoint :=
  (List.range (gridCount q - 1)).map (densityPointAt q)

/-- `buildCdf`: sampled CDF and density curves plus the three threshold
probabilities, each rounded to 3 decimals. -/
noncomputable def buildCdf (q : RQuantiles) : CdfResult :=
  { pBelow12 := round3 (evaluateCdf 12 q (leftRateOf q) (rightRateOf q))
    pBelow20 := round3 (evaluateCdf 20 q (leftRateOf q) (rightRateOf q))
    pBelow30 := round3 (evaluateCdf 30 q (leftRateOf q) (rightRateOf q))
    cdfPoints := cdfPointList q
    densityPoints := densityPointList q }

/-- Trapezoidal integral of a sampled curve:
`Σ (y_i + y_{i+1}) / 2 * (x_{i+1} - x_i)` over consecutive points. -/
noncomputable def trapezoidArea : List CdfPoint → ℝ
  | p :: r :: rest => (p.y + r.y) / 2 * (r.x - p.x) + trapezoidArea (r :: rest)
  | _ => 0

end VitaminD

namespace VitaminD

/-- The grid abscissas after display rounding, in tenths: `gridBase q + 5k`. -/
noncomputable def gridBase (q : RQuantiles) : ℤ := ⌊leftExtent q * 10 + 1 / 2⌋

/-- Closed form of the trapezoidal integral of the density sequence of
`buildCdf`: half the sum of the last two sampled CDF ordinates minus half the
sum of the first two (and `0` when fewer than two samples exist). -/
noncomputable def densityTrapezoidClosedForm (q : RQuantiles) : ℝ :=
  if 2 ≤ gridCount q then
    (sampleY q (gridCount q - 1) + sampleY q (gridCount q - 2) -
      sampleY q 1 - sampleY q 0) / 2
  else 0
end VitaminD

/-! ## Basic lemmas about the calibration step -/

namespace VitaminD

theorem if_lt_eq_max (a b : ℚ) : (if a < b then b else a) = max a b := by
  rcases le_or_lt b a with h | h
  · rw [if_neg (not_lt.mpr h), max_eq_left h]
  · rw [if_pos h, max_eq_right h.le]

theorem enforceMonotonic_q05 (q : QuantilePredictions) :
    (enforceMonotonicQuantiles q).q05 = q.q05 := rfl

theorem enforceMonotonic_q25 (q : QuantilePredictions) :
    (enforceMonotonicQuantiles q).q25 = max q.q25 q.q05 := by
  simp only [enforceMonotonicQuantiles, if_lt_eq_max]

theorem enforceMonotonic_q50 (q : QuantilePredictions) :
    (enforceMonotonicQuantiles q).q50 = max q.q50 (max q.q25 q.q05) := by
  simp only [enforceMonotonicQuantiles, if_lt_eq_max]

theorem enforceMonotonic_q75 (q : QuantilePredictions) :
    (enforceMonotonicQuantiles q).q75 = max q.q75 (max q.q50 (max q.q25 q.q05)) := by
  simp only [enforceMonotonicQuantiles, if_lt_eq_max]

theorem enforceMonotonic_q95 (q : QuantilePredictions) :
    (enforceMonotonicQuantiles q).q95 =
      max q.q95 (max q.q75 (max q.q50 (max q.q25 q.q05))) := by
  simp only [enforceMonotonicQuantiles, if_lt_eq_max]

theorem enforceMonotonic_sorted (q : QuantilePredictions) :
    QuantilesSorted (enforceMonotonicQuantiles q) := by
  refine ⟨?_, ?_, ?_, ?_⟩ <;>
    simp only [enforceMonotonic_q05, enforceMonotonic_q25, enforceMonotonic_q50,
      enforceMonotonic_q75, enforceMonotonic_q95]
  · exact le_max_right _ _
  · exact le_max_right _ _
  · exact le_max_right _ _
  · exact le_max_right _ _

theorem enforceMonotonic_q95_ge (q : QuantilePredictions) :
    q.q95 ≤ (enforceMonotonicQuantiles q).q95 := by
  rw [enforceMonotonic_q95]; exact le_max_left _ _

theorem enforceMonotonic_of_sorted (q : QuantilePredictions)
    (h : QuantilesSorted q) : enforceMonotonicQuantiles q = q := by
  obtain ⟨h1, h2, h3, h4⟩ := h
  have e25 : max q.q25 q.q05 = q.q25 := max_eq_left h1
  have e50 : max q.q50 (max q.q25 q.q05) = q.q50 := by rw [e25]; exact max_eq_left h2
  have e75 : max q.q75 (max q.q50 (max q.q25 q.q05)) = q.q75 := by
    rw [e50]; exact max_eq_left h3
  have e95 : max q.q95 (max q.q75 (max q.q50 (max q.q25 q.q05))) = q.q95 := by
    rw [e75]; exact max_eq_left h4
  cases q
  simp only [enforceMonotonicQuantiles, if_lt_eq_max] at *
  simp_all

theorem tailScale_ge_one (z : ℚ) : 1 ≤ min MAX_TAIL_SCALE (max 1 z) :=
  le_min (by norm_num [MAX_TAIL_SCALE]) (le_max_left _ _)

end VitaminD

namespace VitaminD

theorem scaleInterval_q50 (q : QuantilePredictions) (hq : QuantilesSorted q)
    (s : ℚ) (hs : 1 ≤ s) : (scaleIntervalAroundMedian q s).q50 = q.q50 := by
  obtain ⟨h1, h2, h3, h4⟩ := hq
  have hms : (0 : ℚ) ≤ 1 + (s - 1) * MIDDLE_SCALE_FRACTION := by
    simp only [MIDDLE_SCALE_FRACTION]; linarith
  simp only [scaleIntervalAroundMedian]
  rw [enforceMonotonic_q50]
  dsimp only
  refine max_eq_left (max_le ?_ ?_)
  · linarith [mul_nonneg (by linarith : (0:ℚ) ≤ q.q50 - q.q25) hms]
  · linarith [mul_nonneg (by linarith : (0:ℚ) ≤ q.q50 - q.q05) (by linarith : (0:ℚ) ≤ s)]

theorem scaleInterval_width (q : QuantilePredictions) (hq : QuantilesSorted q)
    (s : ℚ) (hs : 1 ≤ s) :
    q.q95 - q.q05 ≤ (scaleIntervalAroundMedian q s).q95 - (scaleIntervalAroundMedian q s).q05 := by
  obtain ⟨h1, h2, h3, h4⟩ := hq
  have h05 : (scaleIntervalAroundMedian q s).q05 = q.q50 - (q.q50 - q.q05) * s := rfl
  have h95 : q.q50 + (q.q95 - q.q50) * s ≤ (scaleIntervalAroundMedian q s).q95 := by
    simpa using enforceMonotonic_q95_ge
      { q05 := q.q50 - (q.q50 - q.q05) * s
        q25 := q.q50 - (q.q50 - q.q25) * (1 + (s - 1) * MIDDLE_SCALE_FRACTION)
        q50 := q.q50
        q75 := q.q50 + (q.q75 - q.q50) * (1 + (s - 1) * MIDDLE_SCALE_FRACTION)
        q95 := q.q50 + (q.q95 - q.q50) * s }
  rw [h05]
  nlinarith [mul_le_mul_of_nonneg_right hs (by linarith : (0:ℚ) ≤ q.q95 - q.q05)]

theorem coverageFallback_q50 (m0 : QuantilePredictions) (hm : QuantilesSorted m0)
    (ic : Option IntervalCoveragePi90) : (coverageFallback m0 ic).q50 = m0.q50 := by
  cases ic with
  | none => rfl
  | some pi90 =>
    simp only [coverageFallback]
    split_ifs with hg ht
    · rfl
    · rfl
    · exact scaleInterval_q50 m0 hm _ (tailScale_ge_one _)

theorem coverageFallback_width (m0 : QuantilePredictions) (hm : QuantilesSorted m0)
    (ic : Option IntervalCoveragePi90) :
    m0.q95 - m0.q05 ≤ (coverageFallback m0 ic).q95 - (coverageFallback m0 ic).q05 := by
  cases ic with
  | none => exact le_refl _
  | some pi90 =>
    simp only [coverageFallback]
    split_ifs with hg ht
    · exact le_refl _
    · exact le_refl _
    · exact scaleInterval_width m0 hm _ (tailScale_ge_one _)

theorem calibrate_eq_fallback (q : QuantilePredictions) (meta : ModelMeta)
    (hc : ¬ conformalApplies meta) :
    calibrateQuantiles q (some meta) =
      coverageFallback (enforceMonotonicQuantiles q) meta.interval_coverage := by
  cases hca : meta.conformal_adjustments with
  | none => simp only [calibrateQuantiles, hca]
  | some c =>
    simp only [calibrateQuantiles, hca]
    rw [if_neg]
    intro h
    exact hc ⟨c, hca, h⟩

theorem calibrate_eq_conformal (q : QuantilePredictions) (meta : ModelMeta)
    (c : ConformalPi90) (hca : meta.conformal_adjustments = some c)
    (hl : 0 ≤ c.lower) (hu : 0 ≤ c.upper) :
    calibrateQuantiles q (some meta) =
      enforceMonotonicQuantiles
        { q05 := (enforceMonotonicQuantiles q).q05 - c.lower
          q25 := (enforceMonotonicQuantiles q).q25 - c.lower * (35 / 100)
          q50 := (enforceMonotonicQuantiles q).q50
          q75 := (enforceMonotonicQuantiles q).q75 + c.upper * (35 / 100)
          q95 := (enforceMonotonicQuantiles q).q95 + c.upper } := by
  simp only [calibrateQuantiles, hca]
  rw [if_pos ⟨hl, hu⟩]

end VitaminD

namespace VitaminD

/-- C10: `calibrateQuantiles` never moves the (monotonicity-repaired) median:
on the no-metadata path, the conformal-adjustment path and the coverage-scaling
path alike, the `q50` of the calibrated output equals the `q50` of
`enforceMonotonicQuantiles` applied to the input. -/
theorem calibrateQuantiles_preserves_median (q : QuantilePredictions)
    (m : Option ModelMeta) :
    (calibrateQuantiles q m).q50 = (enforceMonotonicQuantiles q).q50 := by
  cases m with
  | none => rfl
  | some meta =>
    have hms : QuantilesSorted (enforceMonotonicQuantiles q) := enforceMonotonic_sorted q
    by_cases hc : conformalApplies meta
    · obtain ⟨c, hca, hl, hu⟩ := hc
      rw [calibrate_eq_conformal q meta c hca hl hu]
      obtain ⟨s1, s2, s3, s4⟩ := hms
      rw [enforceMonotonic_q50]
      dsimp only
      refine max_eq_left (max_le (by linarith) (by linarith))
    · rw [calibrate_eq_fallback q meta hc]
      exact coverageFallback_q50 _ hms _

/-- C4: calibration never shrinks the 90% interval: for every input and every
(possibly absent) model metadata, the calibrated `q95 - q05` width is at least
the width after the monotonicity repair alone. -/
theorem calibrateQuantiles_width_nonshrinking (q : QuantilePredictions)
    (m : Option ModelMeta) :
    (enforceMonotonicQuantiles q).q95 - (enforceMonotonicQuantiles q).q05 ≤
      (calibrateQuantiles q m).q95 - (calibrateQuantiles q m).q05 := by
  cases m with
  | none => exact le_refl _
  | some meta =>
    have hms : QuantilesSorted (enforceMonotonicQuantiles q) := enforceMonotonic_sorted q
    by_cases hc : conformalApplies meta
    · obtain ⟨c, hca, hl, hu⟩ := hc
      rw [calibrate_eq_conformal q meta c hca hl hu]
      have h05 :
          (enforceMonotonicQuantiles
            { q05 := (enforceMonotonicQuantiles q).q05 - c.lower
              q25 := (enforceMonotonicQuantiles q).q25 - c.lower * (35 / 100)
              q50 := (enforceMonotonicQuantiles q).q50
              q75 := (enforceMonotonicQuantiles q).q75 + c.upper * (35 / 100)
              q95 := (enforceMonotonicQuantiles q).q95 + c.upper }).q05 =
            (enforceMonotonicQuantiles q).q05 - c.lower := rfl
      have h95 :
          (enforceMonotonicQuantiles q).q95 + c.upper ≤
          (enforceMonotonicQuantiles
            { q05 := (enforceMonotonicQuantiles q).q05 - c.lower
              q25 := (enforceMonotonicQuantiles q).q25 - c.lower * (35 / 100)
              q50 := (enforceMonotonicQuantiles q).q50
              q75 := (enforceMonotonicQuantiles q).q75 + c.upper * (35 / 100)
              q95 := (enforceMonotonicQuantiles q).q95 + c.upper }).q95 := by
        simpa using enforceMonotonic_q95_ge
          { q05 := (enforceMonotonicQuantiles q).q05 - c.lower
            q25 := (enforceMonotonicQuantiles q).q25 - c.lower * (35 / 100)
            q50 := (enforceMonotonicQuantiles q).q50
            q75 := (enforceMonotonicQuantiles q).q75 + c.upper * (35 / 100)
            q95 := (enforceMonotonicQuantiles q).q95 + c.upper }
      rw [h05]
      linarith
    · rw [calibrate_eq_fallback q meta hc]
      exact coverageFallback_width _ hms _

end VitaminD

namespace VitaminD

/-- C5: the monotonicity repair clamps each value up to its predecessor and
never reorders: the first output component equals the input, every later
output component is the maximum of its input component and the previous output
component, the output is non-decreasing, an already non-decreasing input is
returned unchanged, and the crossed input `{30, 20, 28, 36, 45}` repairs to
`{30, 30, 30, 36, 45}`. -/
theorem enforceMonotonic_clamps_up (q : QuantilePredictions) :
    ((enforceMonotonicQuantiles q).q05 = q.q05 ∧
     (enforceMonotonicQuantiles q).q25 = max q.q25 (enforceMonotonicQuantiles q).q05 ∧
     (enforceMonotonicQuantiles q).q50 = max q.q50 (enforceMonotonicQuantiles q).q25 ∧
     (enforceMonotonicQuantiles q).q75 = max q.q75 (enforceMonotonicQuantiles q).q50 ∧
     (enforceMonotonicQuantiles q).q95 = max q.q95 (enforceMonotonicQuantiles q).q75) ∧
    QuantilesSorted (enforceMonotonicQuantiles q) ∧
    (QuantilesSorted q → enforceMonotonicQuantiles q = q) ∧
    enforceMonotonicQuantiles ⟨30, 20, 28, 36, 45⟩ = ⟨30, 30, 30, 36, 45⟩ := by
  refine ⟨⟨enforceMonotonic_q05 q, ?_, ?_, ?_, ?_⟩,
    enforceMonotonic_sorted q, enforceMonotonic_of_sorted q, by decide⟩
  · rw [enforceMonotonic_q25, enforceMonotonic_q05]
  · rw [enforceMonotonic_q50, enforceMonotonic_q25]
  · rw [enforceMonotonic_q75, enforceMonotonic_q50]
  · rw [enforceMonotonic_q95, enforceMonotonic_q75]

/-- Witness for C5: the sorted-input clause of `enforceMonotonic_clamps_up`
applied at the concrete sorted input `{10, 20, 30, 40, 50}`. -/
theorem enforceMonotonic_clamps_up_witness :
    enforceMonotonicQuantiles ⟨10, 20, 30, 40, 50⟩ = ⟨10, 20, 30, 40, 50⟩ :=
  (enforceMonotonic_clamps_up ⟨10, 20, 30, 40, 50⟩).2.2.1 (by norm_num [QuantilesSorted])

theorem tailScale_code_eq_claim (cov gap : ℚ) (hcov : 0 < cov) (hgap : 1 / 200 < gap) :
    min MAX_TAIL_SCALE (max 1 (1 + gap / max cov (1 / 100))) =
      min MAX_TAIL_SCALE (max 1 (1 + gap / cov)) := by
  rcases le_or_lt (1 / 100 : ℚ) cov with h | h
  · rw [max_eq_left h]
  · rw [max_eq_right h.le]
    have hgap0 : (0 : ℚ) < gap := lt_trans (by norm_num) hgap
    have h1 : (135 / 100 : ℚ) ≤ 1 + gap / (1 / 100) := by
      rw [div_div_eq_mul_div, div_one]
      linarith
    have h2 : gap / (1 / 100) < gap / cov := div_lt_div_of_pos_left hgap0 hcov h
    rw [min_eq_left (le_trans (by simp only [MAX_TAIL_SCALE]; exact h1) (le_max_right 1 (1 + gap / (1 / 100)))),
      min_eq_left (le_trans (by simp only [MAX_TAIL_SCALE]; linarith) (le_max_right 1 (1 + gap / cov)))]

/-- C6: when no conformal adjustment applies and PI90 interval coverage is
present with `coverage > 0`, `target > 0`: if `gap = target - coverage`
exceeds the `0.005` tolerance, `calibrateQuantiles` rescales `q05`/`q95`
around the median by `scale = min(1.35, max(1, 1 + gap/coverage))` and
`q25`/`q75` by `1 + (scale - 1)/2`, then re-enforces monotonicity; if
`gap ≤ 0.005` it returns the monotonic quantiles unchanged. -/
theorem calibrateQuantiles_coverage_path (q : QuantilePredictions) (meta : ModelMeta)
    (pi90 : IntervalCoveragePi90)
    (hc : ¬ conformalApplies meta) (hic : meta.interval_coverage = some pi90)
    (hcov : 0 < pi90.coverage) (htar : 0 < pi90.target) :
    (5 / 1000 < pi90.target - pi90.coverage →
      calibrateQuantiles q (some meta) =
        (let monotonic := enforceMonotonicQuantiles q
         let scale := min (135 / 100) (max 1 (1 + (pi90.target - pi90.coverage) / pi90.coverage))
         let middleScale := 1 + (scale - 1) * (1 / 2)
         enforceMonotonicQuantiles
          { q05 := monotonic.q50 - (monotonic.q50 - monotonic.q05) * scale
            q25 := monotonic.q50 - (monotonic.q50 - monotonic.q25) * middleScale
            q50 := monotonic.q50
            q75 := monotonic.q50 + (monotonic.q75 - monotonic.q50) * middleScale
            q95 := monotonic.q50 + (monotonic.q95 - monotonic.q50) * scale })) ∧
    (pi90.target - pi90.coverage ≤ 5 / 1000 →
      calibrateQuantiles q (some meta) = enforceMonotonicQuantiles q) := by
  rw [calibrate_eq_fallback q meta hc, hic]
  simp only [coverageFallback]
  rw [if_neg (by push_neg; exact ⟨hcov, htar⟩)]
  constructor
  · intro hgap
    rw [if_neg (by simp only [COVERAGE_TOLERANCE]; linarith)]
    rw [tailScale_code_eq_claim pi90.coverage _ hcov (by linarith : (1:ℚ)/200 < pi90.target - pi90.coverage)]
    simp only [scaleIntervalAroundMedian, MIDDLE_SCALE_FRACTION, MAX_TAIL_SCALE]
  · intro hgap
    rw [if_pos (by simp only [COVERAGE_TOLERANCE]; linarith)]

/-- Witness for C6: both clauses of `calibrateQuantiles_coverage_path`
instantiated at concrete metadata; first with coverage 0.8 and target 0.9
(gap 0.1 above tolerance), then with coverage 0.9 and target 0.9. -/
theorem calibrateQuantiles_coverage_path_witness :
    calibrateQuantiles ⟨10, 20, 30, 40, 50⟩
        (some ⟨none, some ⟨8/10, 9/10⟩⟩) =
      (let monotonic := enforceMonotonicQuantiles ⟨10, 20, 30, 40, 50⟩
       let scale := min (135 / 100) (max 1 (1 + ((9:ℚ)/10 - 8/10) / (8/10)))
       let middleScale := 1 + (scale - 1) * (1 / 2)
       enforceMonotonicQuantiles
        { q05 := monotonic.q50 - (monotonic.q50 - monotonic.q05) * scale
          q25 := monotonic.q50 - (monotonic.q50 - monotonic.q25) * middleScale
          q50 := monotonic.q50
          q75 := monotonic.q50 + (monotonic.q75 - monotonic.q50) * middleScale
          q95 := monotonic.q50 + (monotonic.q95 - monotonic.q50) * scale }) ∧
    calibrateQuantiles ⟨10, 20, 30, 40, 50⟩
        (some ⟨none, some ⟨9/10, 9/10⟩⟩) = enforceMonotonicQuantiles ⟨10, 20, 30, 40, 50⟩ := by
  constructor
  · exact (calibrateQuantiles_coverage_path ⟨10, 20, 30, 40, 50⟩
      ⟨none, some ⟨8/10, 9/10⟩⟩ ⟨8/10, 9/10⟩
      (by rintro ⟨c, hc, -⟩; simp at hc) rfl (by norm_num) (by norm_num)).1 (by norm_num)
  · exact (calibrateQuantiles_coverage_path ⟨10, 20, 30, 40, 50⟩
      ⟨none, some ⟨9/10, 9/10⟩⟩ ⟨9/10, 9/10⟩
      (by rintro ⟨c, hc, -⟩; simp at hc) rfl (by norm_num) (by norm_num)).2 (by norm_num)

end VitaminD

namespace VitaminD

theorem getZoneContent_zone (zone : Zone) (t : ThresholdProbabilities)
    (q : QuantilePredictions) (w : Bool) : (getZoneContent zone t q w).zone = zone := by
  cases zone <;> rfl


end VitaminD

namespace VitaminD

/-- C1: the wide-interval test is applied first and takes priority: whenever
`q95 - q05 > 35` the zone is `uncertain` and `wideIntervalWarning` is set,
regardless of `pBelow20`; otherwise the zone is decided purely by the
threshold probability (`pBelow20 < 0.10` gives `low`, `pBelow20 > 0.50` gives
`high`, anything else `uncertain`). -/
theorem generateCounseling_wide_interval_first (q : QuantilePredictions)
    (t : ThresholdProbabilities) (f : ModelFeatures)
    (sgs : Option (List SparseSubgroup)) :
    (q.q95 - q.q05 > 35 →
      (generateCounseling q t f sgs).zone = Zone.uncertain ∧
      (generateCounseling q t f sgs).wideIntervalWarning = true) ∧
    (¬ (q.q95 - q.q05 > 35) →
      (generateCounseling q t f sgs).zone =
        (if t.pBelow20 < 1 / 10 then Zone.low
         else if t.pBelow20 > 1 / 2 then Zone.high
         else Zone.uncertain) ∧
      (generateCounseling q t f sgs).wideIntervalWarning = false) := by
  constructor
  · intro h
    have hw : decide (q.q95 - q.q05 > WIDE_INTERVAL_THRESHOLD) = true := by
      rw [decide_eq_true_eq]
      simpa [WIDE_INTERVAL_THRESHOLD] using h
    constructor
    · simp only [generateCounseling, hw, if_true, getZoneContent_zone]
    · simp only [generateCounseling, hw]
  · intro h
    have hw : decide (q.q95 - q.q05 > WIDE_INTERVAL_THRESHOLD) = false := by
      rw [decide_eq_false_iff_not]
      simpa [WIDE_INTERVAL_THRESHOLD] using h
    constructor
    · simp only [generateCounseling, hw, Bool.false_eq_true, if_false, getZoneContent_zone,
        LOW_RISK_CEILING, HIGH_RISK_FLOOR]
    · simp only [generateCounseling, hw]

/-- Witness for C1: a width-55 interval (`q05 = 5`, `q95 = 60`) with a tiny
deficiency probability (0.05) is still classified `uncertain` with the
warning set, by `generateCounseling_wide_interval_first`. -/
theorem generateCounseling_wide_interval_first_witness :
    (generateCounseling ⟨5, 10, 20, 30, 60⟩ ⟨1/100, 5/100, 1/10⟩
        ⟨50, 1, 25, 2, 1, 0⟩ none).zone = Zone.uncertain ∧
    (generateCounseling ⟨5, 10, 20, 30, 60⟩ ⟨1/100, 5/100, 1/10⟩
        ⟨50, 1, 25, 2, 1, 0⟩ none).wideIntervalWarning = true :=
  (generateCounseling_wide_interval_first ⟨5, 10, 20, 30, 60⟩ ⟨1/100, 5/100, 1/10⟩
    ⟨50, 1, 25, 2, 1, 0⟩ none).1 (by norm_num)

end VitaminD

namespace VitaminD

/-- C2 (code evaluated at the failing input): with `q05 = NaN` and the other
quantiles `20, 28, 36, 45`, no error is raised anywhere in the pipeline:
`calibrateQuantiles` returns the `NaN`-carrying record unchanged, and the
threshold part of `buildCdf` returns `pBelow12 = pBelow20 = NaN` together
with the perfectly valid-looking `pBelow30 = 0.563` — whatever values
`Math.exp` and `Math.log` take.  The non-finite input is silently coerced
into a result instead of propagating an error. -/
theorem pipeline_accepts_nan_quantile (mexp mlog : JsNum → JsNum) :
    calibrateQuantilesJs ⟨JsNum.nan, JsNum.num 20, JsNum.num 28, JsNum.num 36, JsNum.num 45⟩
        none =
      ⟨JsNum.nan, JsNum.num 20, JsNum.num 28, JsNum.num 36, JsNum.num 45⟩ ∧
    buildCdfThresholdsJs mexp mlog
        ⟨JsNum.nan, JsNum.num 20, JsNum.num 28, JsNum.num 36, JsNum.num 45⟩ =
      (JsNum.nan, JsNum.nan, JsNum.num (563/1000)) := by
  constructor
  · rfl
  · norm_num [buildCdfThresholdsJs, evaluateCdfJs, jsLe, jsGe, jsSub, jsNeg, jsAdd,
      jsMul, jsDiv, jsMax, jsRound3, jsRoundJs, Prod.ext_iff]

end VitaminD

namespace VitaminD

/-- C8: for the input `{q05:15, q25:20, q50:28, q75:36, q95:45}` the deficiency
threshold `x = 20` coincides with the `q25` knot, so the interpolated
`pBelow20` of `buildCdf` is exactly the knot probability `0.25` (the 3-decimal
rounding leaves `0.25` unchanged). -/
theorem buildCdf_pBelow20_at_knot :
    (buildCdf ⟨15, 20, 28, 36, 45⟩).pBelow20 = 1 / 4 := by
  have h : evaluateCdf 20 ⟨15, 20, 28, 36, 45⟩ (leftRateOf ⟨15, 20, 28, 36, 45⟩)
      (rightRateOf ⟨15, 20, 28, 36, 45⟩) = 1 / 4 := by
    unfold evaluateCdf
    norm_num
  show round3 (evaluateCdf 20 ⟨15, 20, 28, 36, 45⟩ _ _) = 1 / 4
  rw [h]
  unfold round3 jsRoundR
  norm_num

end VitaminD

namespace VitaminD

theorem leftRateOf_pos (q : RQuantiles) : 0 < leftRateOf q := by
  unfold leftRateOf computeLeftTailRate
  apply div_pos
  · rw [show ((1 : ℝ) / 20) / (1 / 1000) = 50 by norm_num]
    exact Real.log_pos (by norm_num)
  · exact lt_of_lt_of_le (by norm_num) (le_max_left 10 q.q05)

theorem rightRateOf_pos (q : RQuantiles) : 0 < rightRateOf q := by
  unfold rightRateOf computeRightTailRate
  apply div_pos
  · rw [show ((1 : ℝ) - 19 / 20) / (1 / 1000) = 50 by norm_num]
    exact Real.log_pos (by norm_num)
  · norm_num

theorem evalCdf_left_eq (q : RQuantiles) (lr rr x : ℝ) (hx : x ≤ q.q05) :
    evaluateCdf x q lr rr = (1 / 20) * Real.exp (lr * (x - q.q05)) := by
  unfold evaluateCdf; rw [if_pos hx]

theorem evalCdf_right_eq (q : RQuantiles) (lr rr x : ℝ)
    (h1 : ¬ x ≤ q.q05) (h2 : x ≥ q.q95) :
    evaluateCdf x q lr rr = 1 - (1 - 19 / 20) * Real.exp (-(rr * (x - q.q95))) := by
  unfold evaluateCdf; rw [if_neg h1, if_pos h2]

theorem evalCdf_seg1_eq (q : RQuantiles) (lr rr x : ℝ)
    (h1 : ¬ x ≤ q.q05) (h2 : ¬ x ≥ q.q95) (h3 : x ≤ q.q25) :
    evaluateCdf x q lr rr = 1 / 20 + (x - q.q05) / (q.q25 - q.q05) * (1 / 4 - 1 / 20) := by
  unfold evaluateCdf; rw [if_neg h1, if_neg h2, if_pos h3]

theorem evalCdf_seg2_eq (q : RQuantiles) (lr rr x : ℝ)
    (h1 : ¬ x ≤ q.q05) (h2 : ¬ x ≥ q.q95) (h3 : ¬ x ≤ q.q25) (h4 : x ≤ q.q50) :
    evaluateCdf x q lr rr = 1 / 4 + (x - q.q25) / (q.q50 - q.q25) * (1 / 2 - 1 / 4) := by
  unfold evaluateCdf; rw [if_neg h1, if_neg h2, if_neg h3, if_pos h4]

theorem evalCdf_seg3_eq (q : RQuantiles) (lr rr x : ℝ)
    (h1 : ¬ x ≤ q.q05) (h2 : ¬ x ≥ q.q95) (h3 : ¬ x ≤ q.q25) (h4 : ¬ x ≤ q.q50)
    (h5 : x ≤ q.q75) :
    evaluateCdf x q lr rr = 1 / 2 + (x - q.q50) / (q.q75 - q.q50) * (3 / 4 - 1 / 2) := by
  unfold evaluateCdf; rw [if_neg h1, if_neg h2, if_neg h3, if_neg h4, if_pos h5]

theorem evalCdf_seg4_eq (q : RQuantiles) (lr rr x : ℝ)
    (h1 : ¬ x ≤ q.q05) (h2 : ¬ x ≥ q.q95) (h3 : ¬ x ≤ q.q25) (h4 : ¬ x ≤ q.q50)
    (h5 : ¬ x ≤ q.q75) :
    evaluateCdf x q lr rr = 3 / 4 + (x - q.q75) / (q.q95 - q.q75) * (19 / 20 - 3 / 4) := by
  unfold evaluateCdf
  rw [if_neg h1, if_neg h2, if_neg h3, if_neg h4, if_neg h5,
    if_pos (le_of_lt (not_le.mp h2))]

theorem interp_bounds (a b la lb x : ℝ) (hax : a < x) (hxb : x ≤ b) (hl : la < lb) :
    la < la + (x - a) / (b - a) * (lb - la) ∧
      la + (x - a) / (b - a) * (lb - la) ≤ lb := by
  have hden : 0 < b - a := by linarith
  have hfrac_pos : 0 < (x - a) / (b - a) := div_pos (by linarith) hden
  have hfrac_le : (x - a) / (b - a) ≤ 1 := (div_le_one hden).mpr (by linarith)
  constructor
  · nlinarith
  · nlinarith

theorem interp_mono (a b la lb x y : ℝ) (hden : 0 < b - a) (hl : 0 ≤ lb - la)
    (hxy : x ≤ y) :
    la + (x - a) / (b - a) * (lb - la) ≤ la + (y - a) / (b - a) * (lb - la) := by
  have hfrac : (x - a) / (b - a) ≤ (y - a) / (b - a) := by
    exact (div_le_div_iff_of_pos_right hden).mpr (by linarith)
  nlinarith

theorem evalCdf_left_le (q : RQuantiles) (lr rr x : ℝ) (hlr : 0 < lr)
    (hx : x ≤ q.q05) : evaluateCdf x q lr rr ≤ 1 / 20 := by
  rw [evalCdf_left_eq q lr rr x hx]
  have he : Real.exp (lr * (x - q.q05)) ≤ 1 := by
    rw [Real.exp_le_one_iff]
    exact mul_nonpos_of_nonneg_of_nonpos hlr.le (by linarith)
  linarith

theorem evalCdf_left_pos (q : RQuantiles) (lr rr x : ℝ) (hx : x ≤ q.q05) :
    0 < evaluateCdf x q lr rr := by
  rw [evalCdf_left_eq q lr rr x hx]
  positivity

theorem evalCdf_right_bounds (q : RQuantiles) (lr rr x : ℝ) (hrr : 0 < rr)
    (h1 : ¬ x ≤ q.q05) (h2 : x ≥ q.q95) :
    19 / 20 ≤ evaluateCdf x q lr rr ∧ evaluateCdf x q lr rr < 1 := by
  rw [evalCdf_right_eq q lr rr x h1 h2]
  have he : Real.exp (-(rr * (x - q.q95))) ≤ 1 := by
    rw [Real.exp_le_one_iff]
    have : 0 ≤ rr * (x - q.q95) := mul_nonneg hrr.le (by linarith [h2])
    linarith
  have hp : 0 < Real.exp (-(rr * (x - q.q95))) := Real.exp_pos _
  constructor <;> nlinarith

theorem evalCdf_lb0 (q : RQuantiles) (lr rr y : ℝ) (hrr : 0 < rr)
    (h1 : ¬ y ≤ q.q05) : 1 / 20 ≤ evaluateCdf y q lr rr := by
  have h1' : q.q05 < y := not_le.mp h1
  by_cases h2 : y ≥ q.q95
  · linarith [(evalCdf_right_bounds q lr rr y hrr h1 h2).1]
  by_cases h3 : y ≤ q.q25
  · rw [evalCdf_seg1_eq q lr rr y h1 h2 h3]
    linarith [(interp_bounds q.q05 q.q25 (1 / 20) (1 / 4) y h1' h3 (by norm_num)).1]
  have h3' : q.q25 < y := not_le.mp h3
  by_cases h4 : y ≤ q.q50
  · rw [evalCdf_seg2_eq q lr rr y h1 h2 h3 h4]
    linarith [(interp_bounds q.q25 q.q50 (1 / 4) (1 / 2) y h3' h4 (by norm_num)).1]
  have h4' : q.q50 < y := not_le.mp h4
  by_cases h5 : y ≤ q.q75
  · rw [evalCdf_seg3_eq q lr rr y h1 h2 h3 h4 h5]
    linarith [(interp_bounds q.q50 q.q75 (1 / 2) (3 / 4) y h4' h5 (by norm_num)).1]
  have h5' : q.q75 < y := not_le.mp h5
  rw [evalCdf_seg4_eq q lr rr y h1 h2 h3 h4 h5]
  linarith [(interp_bounds q.q75 q.q95 (3 / 4) (19 / 20) y h5'
    (le_of_lt (not_le.mp h2)) (by norm_num)).1]

theorem evalCdf_lb1 (q : RQuantiles) (lr rr y : ℝ) (hrr : 0 < rr)
    (h1 : ¬ y ≤ q.q05) (h3 : ¬ y ≤ q.q25) : 1 / 4 ≤ evaluateCdf y q lr rr := by
  have h3' : q.q25 < y := not_le.mp h3
  by_cases h2 : y ≥ q.q95
  · linarith [(evalCdf_right_bounds q lr rr y hrr h1 h2).1]
  by_cases h4 : y ≤ q.q50
  · rw [evalCdf_seg2_eq q lr rr y h1 h2 h3 h4]
    linarith [(interp_bounds q.q25 q.q50 (1 / 4) (1 / 2) y h3' h4 (by norm_num)).1]
  have h4' : q.q50 < y := not_le.mp h4
  by_cases h5 : y ≤ q.q75
  · rw [evalCdf_seg3_eq q lr rr y h1 h2 h3 h4 h5]
    linarith [(interp_bounds q.q50 q.q75 (1 / 2) (3 / 4) y h4' h5 (by norm_num)).1]
  have h5' : q.q75 < y := not_le.mp h5
  rw [evalCdf_seg4_eq q lr rr y h1 h2 h3 h4 h5]
  linarith [(interp_bounds q.q75 q.q95 (3 / 4) (19 / 20) y h5'
    (le_of_lt (not_le.mp h2)) (by norm_num)).1]

theorem evalCdf_lb2 (q : RQuantiles) (lr rr y : ℝ) (hrr : 0 < rr)
    (h1 : ¬ y ≤ q.q05) (h3 : ¬ y ≤ q.q25) (h4 : ¬ y ≤ q.q50) :
    1 / 2 ≤ evaluateCdf y q lr rr := by
  have h4' : q.q50 < y := not_le.mp h4
  by_cases h2 : y ≥ q.q95
  · linarith [(evalCdf_right_bounds q lr rr y hrr h1 h2).1]
  by_cases h5 : y ≤ q.q75
  · rw [evalCdf_seg3_eq q lr rr y h1 h2 h3 h4 h5]
    linarith [(interp_bounds q.q50 q.q75 (1 / 2) (3 / 4) y h4' h5 (by norm_num)).1]
  have h5' : q.q75 < y := not_le.mp h5
  rw [evalCdf_seg4_eq q lr rr y h1 h2 h3 h4 h5]
  linarith [(interp_bounds q.q75 q.q95 (3 / 4) (19 / 20) y h5'
    (le_of_lt (not_le.mp h2)) (by norm_num)).1]

theorem evalCdf_lb3 (q : RQuantiles) (lr rr y : ℝ) (hrr : 0 < rr)
    (h1 : ¬ y ≤ q.q05) (h3 : ¬ y ≤ q.q25) (h4 : ¬ y ≤ q.q50) (h5 : ¬ y ≤ q.q75) :
    3 / 4 ≤ evaluateCdf y q lr rr := by
  have h5' : q.q75 < y := not_le.mp h5
  by_cases h2 : y ≥ q.q95
  · linarith [(evalCdf_right_bounds q lr rr y hrr h1 h2).1]
  rw [evalCdf_seg4_eq q lr rr y h1 h2 h3 h4 h5]
  linarith [(interp_bounds q.q75 q.q95 (3 / 4) (19 / 20) y h5'
    (le_of_lt (not_le.mp h2)) (by norm_num)).1]

end VitaminD

namespace VitaminD

theorem evalCdf_mem (q : RQuantiles) (lr rr x : ℝ) (hlr : 0 < lr) (hrr : 0 < rr) :
    0 ≤ evaluateCdf x q lr rr ∧ evaluateCdf x q lr rr ≤ 1 := by
  by_cases h1 : x ≤ q.q05
  · exact ⟨(evalCdf_left_pos q lr rr x h1).le,
      le_trans (evalCdf_left_le q lr rr x hlr h1) (by norm_num)⟩
  by_cases h2 : x ≥ q.q95
  · obtain ⟨ha, hb⟩ := evalCdf_right_bounds q lr rr x hrr h1 h2
    exact ⟨by linarith, hb.le⟩
  have h1' : q.q05 < x := not_le.mp h1
  by_cases h3 : x ≤ q.q25
  · rw [evalCdf_seg1_eq q lr rr x h1 h2 h3]
    obtain ⟨ha, hb⟩ := interp_bounds q.q05 q.q25 (1 / 20) (1 / 4) x h1' h3 (by norm_num)
    exact ⟨by linarith, by linarith⟩
  by_cases h4 : x ≤ q.q50
  · rw [evalCdf_seg2_eq q lr rr x h1 h2 h3 h4]
    obtain ⟨ha, hb⟩ :=
      interp_bounds q.q25 q.q50 (1 / 4) (1 / 2) x (not_le.mp h3) h4 (by norm_num)
    exact ⟨by linarith, by linarith⟩
  by_cases h5 : x ≤ q.q75
  · rw [evalCdf_seg3_eq q lr rr x h1 h2 h3 h4 h5]
    obtain ⟨ha, hb⟩ :=
      interp_bounds q.q50 q.q75 (1 / 2) (3 / 4) x (not_le.mp h4) h5 (by norm_num)
    exact ⟨by linarith, by linarith⟩
  rw [evalCdf_seg4_eq q lr rr x h1 h2 h3 h4 h5]
  obtain ⟨ha, hb⟩ := interp_bounds q.q75 q.q95 (3 / 4) (19 / 20) x (not_le.mp h5)
    (le_of_lt (not_le.mp h2)) (by norm_num)
  exact ⟨by linarith, by linarith⟩

theorem evalCdf_mono (q : RQuantiles) (lr rr : ℝ) (hlr : 0 < lr) (hrr : 0 < rr)
    (x y : ℝ) (hxy : x ≤ y) : evaluateCdf x q lr rr ≤ evaluateCdf y q lr rr := by
  by_cases hx1 : x ≤ q.q05
  · by_cases hy1 : y ≤ q.q05
    · rw [evalCdf_left_eq q lr rr x hx1, evalCdf_left_eq q lr rr y hy1]
      have he : Real.exp (lr * (x - q.q05)) ≤ Real.exp (lr * (y - q.q05)) :=
        Real.exp_le_exp.mpr (by nlinarith)
      linarith
    · exact le_trans (evalCdf_left_le q lr rr x hlr hx1) (evalCdf_lb0 q lr rr y hrr hy1)
  have hy1 : ¬ y ≤ q.q05 := fun h => hx1 (hxy.trans h)
  by_cases hx2 : x ≥ q.q95
  · have hy2 : y ≥ q.q95 := le_trans hx2 hxy
    rw [evalCdf_right_eq q lr rr x hx1 hx2, evalCdf_right_eq q lr rr y hy1 hy2]
    have he : Real.exp (-(rr * (y - q.q95))) ≤ Real.exp (-(rr * (x - q.q95))) :=
      Real.exp_le_exp.mpr (by nlinarith)
    linarith
  by_cases hx3 : x ≤ q.q25
  · have hubx : evaluateCdf x q lr rr ≤ 1 / 4 := by
      rw [evalCdf_seg1_eq q lr rr x hx1 hx2 hx3]
      exact (interp_bounds q.q05 q.q25 (1 / 20) (1 / 4) x (not_le.mp hx1) hx3
        (by norm_num)).2
    by_cases hy2 : y ≥ q.q95
    · linarith [(evalCdf_right_bounds q lr rr y hrr hy1 hy2).1]
    by_cases hy3 : y ≤ q.q25
    · rw [evalCdf_seg1_eq q lr rr x hx1 hx2 hx3, evalCdf_seg1_eq q lr rr y hy1 hy2 hy3]
      exact interp_mono q.q05 q.q25 (1 / 20) (1 / 4) x y
        (by linarith [not_le.mp hx1]) (by norm_num) hxy
    · exact le_trans hubx (evalCdf_lb1 q lr rr y hrr hy1 hy3)
  have hy3 : ¬ y ≤ q.q25 := fun h => hx3 (hxy.trans h)
  by_cases hx4 : x ≤ q.q50
  · have hubx : evaluateCdf x q lr rr ≤ 1 / 2 := by
      rw [evalCdf_seg2_eq q lr rr x hx1 hx2 hx3 hx4]
      exact (interp_bounds q.q25 q.q50 (1 / 4) (1 / 2) x (not_le.mp hx3) hx4
        (by norm_num)).2
    by_cases hy2 : y ≥ q.q95
    · linarith [(evalCdf_right_bounds q lr rr y hrr hy1 hy2).1]
    by_cases hy4 : y ≤ q.q50
    · rw [evalCdf_seg2_eq q lr rr x hx1 hx2 hx3 hx4,
        evalCdf_seg2_eq q lr rr y hy1 hy2 hy3 hy4]
      exact interp_mono q.q25 q.q50 (1 / 4) (1 / 2) x y
        (by linarith [not_le.mp hx3]) (by norm_num) hxy
    · exact le_trans hubx (evalCdf_lb2 q lr rr y hrr hy1 hy3 hy4)
  have hy4 : ¬ y ≤ q.q50 := fun h => hx4 (hxy.trans h)
  by_cases hx5 : x ≤ q.q75
  · have hubx : evaluateCdf x q lr rr ≤ 3 / 4 := by
      rw [evalCdf_seg3_eq q lr rr x hx1 hx2 hx3 hx4 hx5]
      exact (interp_bounds q.q50 q.q75 (1 / 2) (3 / 4) x (not_le.mp hx4) hx5
        (by norm_num)).2
    by_cases hy2 : y ≥ q.q95
    · linarith [(evalCdf_right_bounds q lr rr y hrr hy1 hy2).1]
    by_cases hy5 : y ≤ q.q75
    · rw [evalCdf_seg3_eq q lr rr x hx1 hx2 hx3 hx4 hx5,
        evalCdf_seg3_eq q lr rr y hy1 hy2 hy3 hy4 hy5]
      exact interp_mono q.q50 q.q75 (1 / 2) (3 / 4) x y
        (by linarith [not_le.mp hx4]) (by norm_num) hxy
    · exact le_trans hubx (evalCdf_lb3 q lr rr y hrr hy1 hy3 hy4 hy5)
  have hy5 : ¬ y ≤ q.q75 := fun h => hx5 (hxy.trans h)
  have hubx : evaluateCdf x q lr rr ≤ 19 / 20 := by
    rw [evalCdf_seg4_eq q lr rr x hx1 hx2 hx3 hx4 hx5]
    exact (interp_bounds q.q75 q.q95 (3 / 4) (19 / 20) x (not_le.mp hx5)
      (le_of_lt (not_le.mp hx2)) (by norm_num)).2
  by_cases hy2 : y ≥ q.q95
  · linarith [(evalCdf_right_bounds q lr rr y hrr hy1 hy2).1]
  rw [evalCdf_seg4_eq q lr rr x hx1 hx2 hx3 hx4 hx5,
    evalCdf_seg4_eq q lr rr y hy1 hy2 hy3 hy4 hy5]
  exact interp_mono q.q75 q.q95 (3 / 4) (19 / 20) x y
    (by linarith [not_le.mp hx5, not_le.mp hx2]) (by norm_num) hxy

theorem jsRoundR_mono (x y : ℝ) (h : x ≤ y) : jsRoundR x ≤ jsRoundR y := by
  unfold jsRoundR
  exact_mod_cast Int.floor_le_floor (by linarith)

theorem round3_mono (x y : ℝ) (h : x ≤ y) : round3 x ≤ round3 y := by
  unfold round3
  have := jsRoundR_mono (x * 1000) (y * 1000) (by linarith)
  linarith

theorem round3_nonneg (x : ℝ) (h : 0 ≤ x) : 0 ≤ round3 x := by
  unfold round3 jsRoundR
  have : (0 : ℤ) ≤ ⌊x * 1000 + 1 / 2⌋ := by
    apply Int.le_floor.mpr
    push_cast
    linarith
  have h2 : (0 : ℝ) ≤ ⌊x * 1000 + 1 / 2⌋ := by exact_mod_cast this
  linarith

theorem round3_le_one (x : ℝ) (h : x ≤ 1) : round3 x ≤ 1 := by
  unfold round3 jsRoundR
  have h1 : (⌊x * 1000 + 1 / 2⌋ : ℤ) ≤ ⌊(2001 / 2 : ℝ)⌋ :=
    Int.floor_le_floor (by linarith)
  have h3 : (⌊(2001 / 2 : ℝ)⌋ : ℤ) = 1000 := by norm_num
  have h2 : (⌊x * 1000 + 1 / 2⌋ : ℝ) ≤ 1000 := by exact_mod_cast h3 ▸ h1
  linarith

end VitaminD

namespace VitaminD

/-- C3: for every quantile input, the three threshold probabilities of
`buildCdf` are ordered `pBelow12 ≤ pBelow20 ≤ pBelow30` and each lies in
`[0, 1]`. -/
theorem buildCdf_thresholds_ordered (q : RQuantiles) :
    ((buildCdf q).pBelow12 ≤ (buildCdf q).pBelow20 ∧
     (buildCdf q).pBelow20 ≤ (buildCdf q).pBelow30) ∧
    (0 ≤ (buildCdf q).pBelow12 ∧ (buildCdf q).pBelow12 ≤ 1) ∧
    (0 ≤ (buildCdf q).pBelow20 ∧ (buildCdf q).pBelow20 ≤ 1) ∧
    (0 ≤ (buildCdf q).pBelow30 ∧ (buildCdf q).pBelow30 ≤ 1) := by
  have hlr := leftRateOf_pos q
  have hrr := rightRateOf_pos q
  have h12 : (buildCdf q).pBelow12 =
      round3 (evaluateCdf 12 q (leftRateOf q) (rightRateOf q)) := rfl
  have h20 : (buildCdf q).pBelow20 =
      round3 (evaluateCdf 20 q (leftRateOf q) (rightRateOf q)) := rfl
  have h30 : (buildCdf q).pBelow30 =
      round3 (evaluateCdf 30 q (leftRateOf q) (rightRateOf q)) := rfl
  have m12 := evalCdf_mem q (leftRateOf q) (rightRateOf q) 12 hlr hrr
  have m20 := evalCdf_mem q (leftRateOf q) (rightRateOf q) 20 hlr hrr
  have m30 := evalCdf_mem q (leftRateOf q) (rightRateOf q) 30 hlr hrr
  rw [h12, h20, h30]
  refine ⟨⟨round3_mono _ _ ?_, round3_mono _ _ ?_⟩,
    ⟨round3_nonneg _ m12.1, round3_le_one _ m12.2⟩,
    ⟨round3_nonneg _ m20.1, round3_le_one _ m20.2⟩,
    ⟨round3_nonneg _ m30.1, round3_le_one _ m30.2⟩⟩
  · exact evalCdf_mono q _ _ hlr hrr 12 20 (by norm_num)
  · exact evalCdf_mono q _ _ hlr hrr 20 30 (by norm_num)

/-- C9: degenerate inputs are safe.  For all-equal quantiles the three
threshold probabilities of `buildCdf` are well-defined values in `[0, 1]`
(the thresholds only ever hit the two exponential tails); and for every
non-decreasing quantile vector, whenever `evaluateCdf` reaches an interior
interpolation branch the corresponding interval length is strictly positive,
so the interior division is never by zero. -/
theorem buildCdf_degenerate_safe (c : ℝ) (q : RQuantiles) (x : ℝ)
    (_hs : q.q05 ≤ q.q25 ∧ q.q25 ≤ q.q50 ∧ q.q50 ≤ q.q75 ∧ q.q75 ≤ q.q95) :
    ((0 ≤ (buildCdf ⟨c, c, c, c, c⟩).pBelow12 ∧ (buildCdf ⟨c, c, c, c, c⟩).pBelow12 ≤ 1) ∧
     (0 ≤ (buildCdf ⟨c, c, c, c, c⟩).pBelow20 ∧ (buildCdf ⟨c, c, c, c, c⟩).pBelow20 ≤ 1) ∧
     (0 ≤ (buildCdf ⟨c, c, c, c, c⟩).pBelow30 ∧ (buildCdf ⟨c, c, c, c, c⟩).pBelow30 ≤ 1)) ∧
    ((¬ x ≤ q.q05 → ¬ x ≥ q.q95 → x ≤ q.q25 → 0 < q.q25 - q.q05) ∧
     (¬ x ≤ q.q05 → ¬ x ≥ q.q95 → ¬ x ≤ q.q25 → x ≤ q.q50 → 0 < q.q50 - q.q25) ∧
     (¬ x ≤ q.q05 → ¬ x ≥ q.q95 → ¬ x ≤ q.q25 → ¬ x ≤ q.q50 → x ≤ q.q75 →
        0 < q.q75 - q.q50) ∧
     (¬ x ≤ q.q05 → ¬ x ≥ q.q95 → ¬ x ≤ q.q25 → ¬ x ≤ q.q50 → ¬ x ≤ q.q75 →
        0 < q.q95 - q.q75)) := by
  constructor
  · have hlr := leftRateOf_pos ⟨c, c, c, c, c⟩
    have hrr := rightRateOf_pos ⟨c, c, c, c, c⟩
    have m12 := evalCdf_mem ⟨c, c, c, c, c⟩ (leftRateOf _) (rightRateOf _) 12 hlr hrr
    have m20 := evalCdf_mem ⟨c, c, c, c, c⟩ (leftRateOf _) (rightRateOf _) 20 hlr hrr
    have m30 := evalCdf_mem ⟨c, c, c, c, c⟩ (leftRateOf _) (rightRateOf _) 30 hlr hrr
    exact ⟨⟨round3_nonneg _ m12.1, round3_le_one _ m12.2⟩,
      ⟨round3_nonneg _ m20.1, round3_le_one _ m20.2⟩,
      ⟨round3_nonneg _ m30.1, round3_le_one _ m30.2⟩⟩
  · refine ⟨fun h1 _ h3 => ?_, fun h1 _ h3 h4 => ?_,
      fun h1 _ h3 h4 h5 => ?_, fun h1 h2 h3 h4 h5 => ?_⟩
    · linarith [not_le.mp h1]
    · linarith [not_le.mp h3]
    · linarith [not_le.mp h4]
    · linarith [not_le.mp h5, not_le.mp h2]

/-- Witness for C9: `buildCdf_degenerate_safe` at the all-equal value 25, the
non-decreasing vector `{15, 20, 28, 36, 45}` and evaluation point 22. -/
theorem buildCdf_degenerate_safe_witness :
    ((0 ≤ (buildCdf ⟨25, 25, 25, 25, 25⟩).pBelow12 ∧
        (buildCdf ⟨25, 25, 25, 25, 25⟩).pBelow12 ≤ 1) ∧
     (0 ≤ (buildCdf ⟨25, 25, 25, 25, 25⟩).pBelow20 ∧
        (buildCdf ⟨25, 25, 25, 25, 25⟩).pBelow20 ≤ 1) ∧
     (0 ≤ (buildCdf ⟨25, 25, 25, 25, 25⟩).pBelow30 ∧
        (buildCdf ⟨25, 25, 25, 25, 25⟩).pBelow30 ≤ 1)) ∧
    ((¬ (22 : ℝ) ≤ (15 : ℝ) → ¬ (22 : ℝ) ≥ (45 : ℝ) → (22 : ℝ) ≤ (20 : ℝ) →
        (0 : ℝ) < 20 - 15) ∧
     (¬ (22 : ℝ) ≤ (15 : ℝ) → ¬ (22 : ℝ) ≥ (45 : ℝ) → ¬ (22 : ℝ) ≤ (20 : ℝ) →
        (22 : ℝ) ≤ (28 : ℝ) → (0 : ℝ) < 28 - 20) ∧
     (¬ (22 : ℝ) ≤ (15 : ℝ) → ¬ (22 : ℝ) ≥ (45 : ℝ) → ¬ (22 : ℝ) ≤ (20 : ℝ) →
        ¬ (22 : ℝ) ≤ (28 : ℝ) → (22 : ℝ) ≤ (36 : ℝ) → (0 : ℝ) < 36 - 28) ∧
     (¬ (22 : ℝ) ≤ (15 : ℝ) → ¬ (22 : ℝ) ≥ (45 : ℝ) → ¬ (22 : ℝ) ≤ (20 : ℝ) →
        ¬ (22 : ℝ) ≤ (28 : ℝ) → ¬ (22 : ℝ) ≤ (36 : ℝ) → (0 : ℝ) < 45 - 36)) :=
  buildCdf_degenerate_safe 25 ⟨15, 20, 28, 36, 45⟩ 22 (by norm_num)

end VitaminD

namespace VitaminD

theorem cdfPointAt_x (q : RQuantiles) (k : ℕ) :
    (cdfPointAt q k).x = ((gridBase q : ℝ) + 5 * k) / 10 := by
  unfold cdfPointAt round1 jsRoundR sampleX gridBase
  have h : (leftExtent q + k * (1 / 2)) * 10 + 1 / 2 =
      (leftExtent q * 10 + 1 / 2) + ((5 * k : ℤ) : ℝ) := by push_cast; ring
  rw [h, Int.floor_add_int]
  push_cast
  ring

theorem cdfPointAt_x_succ (q : RQuantiles) (k : ℕ) :
    (cdfPointAt q (k + 1)).x - (cdfPointAt q k).x = 1 / 2 := by
  rw [cdfPointAt_x, cdfPointAt_x]
  push_cast
  ring

theorem densityPointAt_mid (q : RQuantiles) (i : ℕ) :
    round1 (((cdfPointAt q (i + 1)).x + (cdfPointAt q i).x) / 2) =
      ((gridBase q : ℝ) + 5 * i + 3) / 10 := by
  unfold round1 jsRoundR
  have h : ((cdfPointAt q (i + 1)).x + (cdfPointAt q i).x) / 2 * 10 + 1 / 2 =
      ((gridBase q + 5 * i + 3 : ℤ) : ℝ) := by
    rw [cdfPointAt_x, cdfPointAt_x]
    push_cast
    ring
  rw [h, Int.floor_intCast]
  push_cast
  ring

theorem round4_int_div500 (m : ℤ) : round4 ((m : ℝ) / 500) = (m : ℝ) / 500 := by
  unfold round4 jsRoundR
  have h : (m : ℝ) / 500 * 10000 + 1 / 2 = (1 / 2 : ℝ) + ((20 * m : ℤ) : ℝ) := by
    push_cast; ring
  rw [h, Int.floor_add_int]
  have h0 : (⌊(1 / 2 : ℝ)⌋ : ℤ) = 0 := by norm_num
  rw [h0]
  push_cast
  ring

theorem sampleY_int (q : RQuantiles) (k : ℕ) :
    sampleY q k =
      ((⌊evaluateCdf (sampleX q k) q (leftRateOf q) (rightRateOf q) * 1000 + 1 / 2⌋ : ℤ) : ℝ)
        / 1000 := rfl

theorem densityPointAt_eq (q : RQuantiles) (i : ℕ) :
    densityPointAt q i =
      ⟨((gridBase q : ℝ) + 5 * i + 3) / 10,
        2 * (sampleY q (i + 1) - sampleY q i)⟩ := by
  unfold densityPointAt
  dsimp only
  rw [cdfPointAt_x_succ]
  rw [if_pos (by norm_num : (0 : ℝ) < 1 / 2)]
  congr 1
  · exact densityPointAt_mid q i
  · have hy : ((cdfPointAt q (i + 1)).y - (cdfPointAt q i).y) / (1 / 2) =
        (((⌊evaluateCdf (sampleX q (i + 1)) q (leftRateOf q) (rightRateOf q) * 1000 + 1 / 2⌋ -
          ⌊evaluateCdf (sampleX q i) q (leftRateOf q) (rightRateOf q) * 1000 + 1 / 2⌋ : ℤ)) : ℝ)
            / 500 := by
      show (sampleY q (i + 1) - sampleY q i) / (1 / 2) = _
      rw [sampleY_int, sampleY_int]
      push_cast
      ring
    rw [hy, round4_int_div500]
    rw [sampleY_int, sampleY_int]
    push_cast
    ring

theorem range_map_cons (f : ℕ → CdfPoint) (n : ℕ) :
    (List.range (n + 1)).map f = f 0 :: (List.range n).map (fun i => f (i + 1)) := by
  rw [List.range_succ_eq_map, List.map_cons, List.map_map]
  rfl

theorem trapz_map_range (f : ℕ → CdfPoint) (M : ℕ)
    (hx : ∀ i, (f (i + 1)).x - (f i).x = 1 / 2) :
    trapezoidArea ((List.range (M + 1)).map f) =
      ∑ i in Finset.range M, ((f i).y + (f (i + 1)).y) / 2 * (1 / 2) := by
  induction M generalizing f with
  | zero => simp [range_map_cons, trapezoidArea]
  | succ n ih =>
    rw [range_map_cons f (n + 1), range_map_cons (fun i => f (i + 1)) n,
      trapezoidArea, ← range_map_cons (fun i => f (i + 1)) n,
      ih (fun i => f (i + 1)) (fun i => hx (i + 1)), Finset.sum_range_succ']
    have h0 := hx 0
    norm_num at h0
    simp only [h0]
    ring

theorem sum_density_telescope (M : ℕ) (Y : ℕ → ℝ) :
    ∑ i in Finset.range M,
        (2 * (Y (i + 1) - Y i) + 2 * (Y (i + 2) - Y (i + 1))) / 2 * (1 / 2) =
      (Y (M + 1) + Y M - Y 1 - Y 0) / 2 := by
  have hcong : ∀ i ∈ Finset.range M,
      (2 * (Y (i + 1) - Y i) + 2 * (Y (i + 2) - Y (i + 1))) / 2 * (1 / 2) =
        (Y (i + 2) - Y (i + 1)) / 2 + (Y (i + 1) - Y i) / 2 := fun i _ => by ring
  rw [Finset.sum_congr rfl hcong, Finset.sum_add_distrib]
  have t1 : ∑ i in Finset.range M, (Y (i + 2) - Y (i + 1)) / 2 = (Y (M + 1) - Y 1) / 2 := by
    rw [← Finset.sum_div, Finset.sum_range_sub (fun i => Y (i + 1))]
  have t2 : ∑ i in Finset.range M, (Y (i + 1) - Y i) / 2 = (Y M - Y 0) / 2 := by
    rw [← Finset.sum_div, Finset.sum_range_sub Y]
  rw [t1, t2]
  ring

end VitaminD

namespace VitaminD

theorem densityPointAt_x_step (q : RQuantiles) (i : ℕ) :
    (densityPointAt q (i + 1)).x - (densityPointAt q i).x = 1 / 2 := by
  simp only [densityPointAt_eq]
  push_cast
  ring

/-- C7 (amended): the piecewise-linear `buildCdf` does not renormalise its
density sequence; the trapezoidal integral of the returned density points
telescopes exactly to half the sum of the last two sampled CDF ordinates
minus half the sum of the first two (`densityTrapezoidClosedForm`), and is
`0` whenever fewer than two grid samples exist. -/
theorem buildCdf_density_trapezoid (q : RQuantiles) :
    trapezoidArea (buildCdf q).densityPoints = densityTrapezoidClosedForm q := by
  show trapezoidArea (densityPointList q) = _
  unfold densityPointList densityTrapezoidClosedForm
  cases hN : gridCount q with
  | zero => simp [trapezoidArea]
  | succ n =>
    cases n with
    | zero => simp [trapezoidArea]
    | succ m =>
      cases m with
      | zero =>
        rw [if_pos (by norm_num), range_map_cons]
        simp [List.range_zero, trapezoidArea]
      | succ k =>
        have key := trapz_map_range (densityPointAt q) (k + 1) (densityPointAt_x_step q)
        have hsum : ∀ i ∈ Finset.range (k + 1),
            ((densityPointAt q i).y + (densityPointAt q (i + 1)).y) / 2 * (1 / 2) =
              (2 * (sampleY q (i + 1) - sampleY q i) +
                2 * (sampleY q (i + 2) - sampleY q (i + 1))) / 2 * (1 / 2) := by
          intro i _
          simp only [densityPointAt_eq]
        rw [show k + 1 + 1 + 1 - 1 = k + 1 + 1 from rfl, key,
          Finset.sum_congr rfl hsum, sum_density_telescope,
          if_pos (by omega : 2 ≤ k + 1 + 1 + 1)]
        rw [show k + 1 + 1 + 1 - 2 = k + 1 from rfl]

/-- C7 (counterexample): for the all-negative input with every quantile equal
to `-50` the sampling loop never runs (`leftExtent = 0 > rightExtent = -35`),
the density sequence is empty, and its trapezoidal integral is `0`, not `1`
within `±0.01`. -/
theorem buildCdf_density_integral_not_one :
    ¬ |trapezoidArea (buildCdf ⟨-50, -50, -50, -50, -50⟩).densityPoints - 1| ≤ 1 / 100 := by
  have h0 : gridCount ⟨-50, -50, -50, -50, -50⟩ = 0 := by
    unfold gridCount leftExtent rightExtent
    rw [if_neg]
    dsimp only
    rw [max_eq_left (by norm_num : (-50 : ℝ) - 15 ≤ 0)]
    norm_num
  have hd : (buildCdf ⟨-50, -50, -50, -50, -50⟩).densityPoints = [] := by
    show densityPointList _ = []
    unfold densityPointList
    rw [h0]
    rfl
  rw [hd]
  show ¬ |trapezoidArea [] - 1| ≤ 1 / 100
  norm_num [trapezoidArea]

end VitaminD
